import Mathlib

/-!
Verification of the offline-first gallery sync engine.

Shallow embedding of the sync engine implemented in the repository's main
screen component (source file `part_002`): the gallery record model, the
save / upload / delete queues, the connectivity handler and the startup
loader, together with theorems settling the specification's claims.

Conventions of the embedding:
* React `useState` cells become fields of an explicit `Sys` state record;
  each `async` handler becomes a pure function `Sys → Sys` (parametrised by
  the outcomes of its external calls: file-system results, adapter results,
  the current clock value `now`).
* `AsyncStorage` becomes the three `persisted*` fields of `Sys`; every
  `AsyncStorage.setItem` in the source is a write to the matching field.
* The local file system is the set (list) of existing paths `localFiles`;
  the remote bucket is the list of object keys `remote`.
* JavaScript template strings over `Date.now()` values become string
  appends over `Nat.repr` (`toString`) of a `now : Nat` parameter.
-/

namespace OfflineGallery

/-- The `uploadStatus` union of the source's `ImageInfo` interface
(`"pending" | "uploading" | "success" | "error"`). -/
inductive UploadStatus where
  | pending
  | uploading
  | success
  | error
deriving DecidableEq, Repr

/-- The source's `ImageInfo` interface: `uri`, `uploadStatus`,
`uploadError`, `uploadDate`, optional `cloudPath`.  JavaScript
`null`/absent fields become `Option`. -/
structure ImageInfo where
  uri : String
  uploadStatus : UploadStatus
  uploadError : Option String
  uploadDate : Option String
  cloudPath : Option String
deriving DecidableEq, Repr

/-- Entries of the online (remote) delete queue:
`{ uri: string; cloudPath: string }`. -/
structure DeleteItem where
  uri : String
  cloudPath : String
deriving DecidableEq, Repr

/-- The whole system state: the component's `useState` cells, the two
external stores (local file system, remote bucket) and the `AsyncStorage`
snapshot. -/
structure Sys where
  savedImages : List ImageInfo
  saveQueue : List ImageInfo
  uploadQueue : List ImageInfo
  offlineDeleteQueue : List ImageInfo
  onlineDeleteQueue : List DeleteItem
  processingImages : List String
  isConnected : Bool
  localFiles : List String
  remote : List String
  persistedImages : List ImageInfo
  persistedOffline : List ImageInfo
  persistedOnline : List DeleteItem
deriving DecidableEq, Repr

/-- JavaScript `String.prototype.split` with a one-character separator
(every `split` in the source uses a one-character separator), on the
character list of the string.  Structural recursion so that concrete
instances evaluate in the kernel; the result is never the empty list,
matching JS (`"".split(x) = [""]`). -/
def splitOnChar (sep : Char) : List Char → List (List Char)
  | [] => [[]]
  | c :: rest =>
    match splitOnChar sep rest with
    | [] => [[c]]
    | h :: t => if c = sep then [] :: h :: t else (c :: h) :: t

/-- JS `s.split(sep)` for a one-character `sep`. -/
def jsSplit (sep : Char) (s : String) : List String :=
  (splitOnChar sep s.data).map String.mk

/-- Does the list start with `sub`? -/
def listStartsWith (sub : List Char) : List Char → Bool :=
  fun l =>
    match sub, l with
    | [], _ => true
    | _ :: _, [] => false
    | c :: cs, d :: ds => c = d && listStartsWith cs ds

/-- Does `sub` occur as a contiguous sublist? -/
def listContainsSub (sub : List Char) : List Char → Bool
  | [] => sub.isEmpty
  | c :: rest => listStartsWith sub (c :: rest) || listContainsSub sub rest

/-- JS `s.includes(sub)`. -/
def jsIncludes (sub s : String) : Bool :=
  listContainsSub sub.data s.data

/-- JS `s.toLowerCase()` (character-wise, structural). -/
def jsToLower (s : String) : String :=
  String.mk (s.data.map Char.toLower)

/-- A nonempty all-digit character list (`\d+`). -/
def isDigitStr (l : List Char) : Bool :=
  !l.isEmpty && l.all Char.isDigit

/-- JavaScript regex `/^\d+-\d+$/`: one or more digits, a dash, one or
more digits. -/
def isIdFormat (s : String) : Bool :=
  match jsSplit '-' s with
  | [a, b] => isDigitStr a.data && isDigitStr b.data
  | _ => false

/-- Source `generateImageHash`: last path component of the uri
(`split("/").pop() || ""`), then the part before the first dot
(`split(".")[0]`); if that matches `/^\d+-\d+$/` it is the hash,
otherwise a fresh `` `${Date.now()}-0` `` is produced (the clock value is
the `now` parameter). -/
def generateImageHash (now : Nat) (uri : String) : String :=
  let filename := ((jsSplit '/' uri).getLast?).getD ""
  let baseFilename := ((jsSplit '.' filename).head?).getD ""
  if isIdFormat baseFilename then baseFilename
  else toString now ++ "-0"

/-- The id scheme of `processSaveQueue`:
`` const uniqueId = `${baseTimestamp}-${index}` ``. -/
def mkUniqueId (baseTimestamp idx : Nat) : String :=
  toString baseTimestamp ++ "-" ++ toString idx

/-- Source `processSaveQueue`.  `now` is the single `Date.now()` base
timestamp of the batch; `copyOk p` is the outcome of
`FileSystem.copyAsync` to target path `p` (on failure the item maps to
`null` and is dropped); `docDir` is `FileSystem.documentDirectory`.
On success the batch is appended to `savedImages` and `uploadQueue`, the
record list is persisted once, and the save queue is cleared. -/
def processSaveQueue (now : Nat) (docDir : String) (copyOk : String → Bool)
    (s : Sys) : Sys :=
  if s.saveQueue.isEmpty then s
  else
    let processed := s.saveQueue.enum.filterMap (fun p =>
      let uniqueId := mkUniqueId now p.1
      let newPath := docDir ++ uniqueId ++ ".jpg"
      if copyOk newPath then
        some { p.2 with uri := newPath, uploadStatus := .pending }
      else none)
    if processed.isEmpty then { s with saveQueue := [] }
    else
      let newSavedImages := s.savedImages ++ processed
      { s with
          savedImages := newSavedImages
          uploadQueue := s.uploadQueue ++ processed
          persistedImages := newSavedImages
          -- `copyAsync` created the target files
          localFiles := s.localFiles ++ processed.map (fun i => i.uri)
          saveQueue := [] }

/-- Outcome of the Supabase `storage.upload` call in the
non-conflicting case (a duplicate key deterministically yields the 409
conflict handled inside `uploadImageToCloud`). -/
inductive AdapterOutcome where
  | ok
  | fail (msg : String)
deriving DecidableEq, Repr

/-- Source `uploadImageToCloud`.  Pure model of one call: `isConnected`
and `processing` are the values captured by the closure, `remote` the
bucket contents when the call runs, `date` the `toISOString()` value,
`outcome` the adapter's verdict for a fresh upload.  Returns the
resulting record and the new bucket contents.
* offline guard: keep the previous status, set the error text;
* pre-check: `list()` the bucket and short-circuit to success when some
  existing object name hashes to the same id;
* `processingImages` guard: return the record unchanged;
* `upsert: false` upload: an existing identical key means statusCode
  409, treated as success; otherwise the adapter outcome decides, a
  failure message containing "network" reverts to `pending`, any other
  failure sets `error`. -/
def uploadImageToCloud (isConnected : Bool) (processing : List String)
    (now : Nat) (date : String) (remote : List String)
    (info : ImageInfo) (outcome : AdapterOutcome) :
    ImageInfo × List String :=
  if !isConnected then
    ({ info with uploadError := some "No internet connection" }, remote)
  else
    let imageHash := generateImageHash now info.uri
    let fileName := imageHash ++ ".jpg"
    let alreadyUploaded :=
      remote.any (fun f => generateImageHash now f == imageHash)
    if alreadyUploaded then
      ({ info with uploadStatus := .success, uploadDate := some date,
                   cloudPath := some fileName, uploadError := none }, remote)
    else if processing.contains imageHash then
      (info, remote)
    else if remote.contains fileName then
      -- upload with `upsert: false` onto an existing key: statusCode 409,
      -- "file already exists in storage, treating as success"
      ({ info with uploadStatus := .success, uploadDate := some date,
                   cloudPath := some fileName, uploadError := none }, remote)
    else
      match outcome with
      | .ok =>
        ({ info with uploadStatus := .success, uploadDate := some date,
                     cloudPath := some fileName, uploadError := none },
         fileName :: remote)
      | .fail msg =>
        -- JS `errorMessage.toLowerCase().includes("network")` (the
        -- `|| !isConnected` disjunct is false on this branch)
        let isNetworkErr := jsIncludes "network" (jsToLower msg)
        ({ info with
             uploadStatus := if isNetworkErr then .pending else .error,
             uploadError := some msg }, remote)

/-!
`processUploadQueue` is an async loop; mutations of `Sys` interleave with
other handlers at its `await` points, so it is embedded as the phases
below (in source order) rather than as one atomic function.
-/

/-- `processUploadQueue`, entry: the guard
`if (!isConnected || uploadQueue.length === 0) return`, then
`const currentQueue = [...uploadQueue]; setUploadQueue([])`.
Returns the captured queue and the state after clearing. -/
def uploadDrainStart (s : Sys) : List ImageInfo × Sys :=
  if !s.isConnected || s.uploadQueue.isEmpty then ([], s)
  else (s.uploadQueue, { s with uploadQueue := [] })

/-- Per-item phase: the branch taken when `FileSystem.getInfoAsync`
reports the file gone — the item's uri is filtered out of both
`uploadQueue` and `savedImages` and the loop continues. -/
def uploadItemFileMissing (s : Sys) (image : ImageInfo) : Sys :=
  { s with
      uploadQueue := s.uploadQueue.filter (fun img => img.uri != image.uri)
      savedImages := s.savedImages.filter (fun img => img.uri != image.uri) }

/-- Per-item phase: `setProcessingImages((prev) => new Set(prev).add(imageHash))`
just before `await uploadImageToCloud`. -/
def uploadMarkProcessing (s : Sys) (now : Nat) (image : ImageInfo) : Sys :=
  { s with processingImages :=
      generateImageHash now image.uri :: s.processingImages }

/-- Per-item phase: the code that runs when `await uploadImageToCloud`
resolves with `result` — `savedImages` replaces the entry with the
item's uri by `result`, the record list is persisted when the result is
a success, and the hash leaves `processingImages`. -/
def uploadResolve (s : Sys) (now : Nat) (image result : ImageInfo) : Sys :=
  let newSavedImages := s.savedImages.map
    (fun img => if img.uri == image.uri then result else img)
  { s with
      savedImages := newSavedImages
      persistedImages :=
        if result.uploadStatus = .success then newSavedImages
        else s.persistedImages
      processingImages :=
        s.processingImages.erase (generateImageHash now image.uri) }

/-- Source `deleteImage`: look up `savedImages[index]` (absent: no-op);
append the record to the offline delete queue and persist that queue;
remove it from the upload queue only when its status is `pending`. -/
def deleteImage (s : Sys) (index : Nat) : Sys :=
  match s.savedImages[index]? with
  | none => s
  | some imageToDelete =>
    let newOfflineQueue := s.offlineDeleteQueue ++ [imageToDelete]
    let s := { s with
      offlineDeleteQueue := newOfflineQueue
      persistedOffline := newOfflineQueue }
    if imageToDelete.uploadStatus = .pending then
      { s with uploadQueue :=
          s.uploadQueue.filter (fun img => img.uri != imageToDelete.uri) }
    else s

/-- Source `processOfflineDeleteQueue`, acting on the front entry.
`deleteOk` is the outcome of `FileSystem.deleteAsync(uri, { idempotent:
true })` (so a missing file still counts as success).  On success: the
local file is gone; if the record was a success with a (JS-truthy, i.e.
nonempty) `cloudPath` it is pushed onto the online delete queue, which
is persisted; the record's uri is filtered out of `savedImages`; record
list and offline queue are persisted.  In the catch branch only the
offline queue is popped and persisted. -/
def processOfflineDeleteQueue (s : Sys) (deleteOk : Bool) : Sys :=
  match s.offlineDeleteQueue with
  | [] => s
  | imageToDelete :: rest =>
    if deleteOk then
      let s := { s with localFiles := s.localFiles.erase imageToDelete.uri }
      let s :=
        if imageToDelete.uploadStatus = .success then
          match imageToDelete.cloudPath with
          | some k =>
            if k = "" then s   -- JS: empty cloudPath is falsy
            else
              let newOnlineQueue :=
                s.onlineDeleteQueue ++ [{ uri := imageToDelete.uri, cloudPath := k }]
              { s with onlineDeleteQueue := newOnlineQueue,
                       persistedOnline := newOnlineQueue }
          | none => s
        else s
      let updatedImages :=
        s.savedImages.filter (fun img => img.uri != imageToDelete.uri)
      { s with
          savedImages := updatedImages
          persistedImages := updatedImages
          offlineDeleteQueue := rest
          persistedOffline := rest }
    else
      { s with offlineDeleteQueue := rest, persistedOffline := rest }

/-- Source `processOnlineDeleteQueue`, acting on the front entry.
Modelled from the spec for the part outside src/: the Supabase storage
adapter's `remove` — per §4.4 a `NotFound` is success (removing an
absent key reports no error), while network/server failures throw;
`netFail` is that verdict.  On failure the catch branch only shows a
toast: the queue, its persisted copy and the bucket are untouched.  On
success the key is removed from the bucket and the queue is popped and
persisted. -/
def processOnlineDeleteQueue (s : Sys) (netFail : Bool) : Sys :=
  if !s.isConnected || s.onlineDeleteQueue.isEmpty then s
  else
    match s.onlineDeleteQueue with
    | [] => s
    | itemToDelete :: rest =>
      if netFail then s
      else
        { s with
            remote := s.remote.erase itemToDelete.cloudPath
            onlineDeleteQueue := rest
            persistedOnline := rest }

/-- Source `NetInfo.addEventListener` handler: store the connectivity
flag; when connected, append every `savedImages` record whose status is
`error` or `pending` to the upload queue (and then trigger the upload
drain — control flow, not a state change).  When disconnected nothing
else changes. -/
def onConnectivity (s : Sys) (connected : Bool) : Sys :=
  let s := { s with isConnected := connected }
  if connected then
    let failedUploads := s.savedImages.filter
      (fun img => img.uploadStatus = .error || img.uploadStatus = .pending)
    { s with uploadQueue := s.uploadQueue ++ failedUploads }
  else s

/-- Per-record body of the `parsed.map` in `loadSavedImages`: a record
with a JS-falsy uri maps to `null`; a record whose file no longer
exists (or whose existence check throws) maps to `null`; any other
record is kept as-is.  (The source also compares `uploadStatus` with
`"pending_deletion"`; that value is outside the `ImageInfo` status
union declared in this file — the branch is statically dead and has no
counterpart here.) -/
def loadCheckImage (localFiles : List String) (img : ImageInfo) :
    Option ImageInfo :=
  if img.uri = "" then none
  else if localFiles.contains img.uri then some img
  else none

/-- Result of `loadSavedImages`. -/
structure LoadResult where
  savedImages : List ImageInfo
  uploadQueue : List ImageInfo
  offlineDeleteQueue : List ImageInfo
  onlineDeleteQueue : List DeleteItem
deriving DecidableEq, Repr

/-- Source `loadSavedImages`: restore both delete queues verbatim from
storage; keep exactly the persisted records that pass `loadCheckImage`;
append the kept records with status `pending` or `error` to the upload
queue (which is the initial `[]` at startup). -/
def loadSavedImages (persistedImages : List ImageInfo)
    (persistedOffline : List ImageInfo) (persistedOnline : List DeleteItem)
    (localFiles : List String) : LoadResult :=
  let validImages := persistedImages.filterMap (loadCheckImage localFiles)
  let imagesToUpload := validImages.filter
    (fun img => img.uploadStatus = .pending || img.uploadStatus = .error)
  { savedImages := validImages
    uploadQueue := ([] : List ImageInfo) ++ imagesToUpload
    offlineDeleteQueue := persistedOffline
    onlineDeleteQueue := persistedOnline }

/-!
Arithmetic facts about `Nat.repr` (used by the id-uniqueness claim):
every character is a digit, and the representation is injective.
-/

def c7img : ImageInfo :=
  { uri := "/d/2-0.jpg", uploadStatus := .pending, uploadError := none
    uploadDate := none, cloudPath := none }

def c7gone : ImageInfo :=
  { uri := "/gone.jpg", uploadStatus := .success, uploadError := none
    uploadDate := some "2025-01-04", cloudPath := some "2-1.jpg" }

/-- Numeric value of a digit character. -/
def charVal (c : Char) : Nat := c.toNat - '0'.toNat

/-- Base-10 value of a digit string. -/
def digitsVal (l : List Char) : Nat :=
  l.foldl (fun a c => 10 * a + charVal c) 0

def c4item : DeleteItem := { uri := "/d/3-0.jpg", cloudPath := "3-0.jpg" }

def c4s : Sys :=
  { savedImages := [], saveQueue := [], uploadQueue := []
    offlineDeleteQueue := [], onlineDeleteQueue := [c4item]
    processingImages := [], isConnected := true
    localFiles := [], remote := ["3-0.jpg"]
    persistedImages := [], persistedOffline := [], persistedOnline := [c4item] }

def c5item : DeleteItem := { uri := "/d/4-0.jpg", cloudPath := "4-0.jpg" }

def c5s : Sys :=
  { savedImages := [], saveQueue := [], uploadQueue := []
    offlineDeleteQueue := [], onlineDeleteQueue := [c5item]
    processingImages := [], isConnected := true
    localFiles := [], remote := []
    persistedImages := [], persistedOffline := [], persistedOnline := [c5item] }

def c10rec : ImageInfo :=
  { uri := "/d/6-0.jpg", uploadStatus := .success, uploadError := none
    uploadDate := some "2025-01-02", cloudPath := some "6-0.jpg" }

def c10s : Sys :=
  { savedImages := [c10rec], saveQueue := [], uploadQueue := []
    offlineDeleteQueue := [c10rec], onlineDeleteQueue := []
    processingImages := [], isConnected := false
    localFiles := ["/d/6-0.jpg"], remote := ["6-0.jpg"]
    persistedImages := [c10rec], persistedOffline := [c10rec], persistedOnline := [] }

def c3rec : ImageInfo :=
  { uri := "/d/8-0.jpg", uploadStatus := .success, uploadError := none
    uploadDate := some "2025-01-03", cloudPath := some "8-0.jpg" }

def c3s : Sys :=
  { savedImages := [c3rec], saveQueue := [], uploadQueue := []
    offlineDeleteQueue := [c3rec], onlineDeleteQueue := []
    processingImages := [], isConnected := false
    localFiles := ["/d/8-0.jpg"], remote := ["8-0.jpg"]
    persistedImages := [c3rec], persistedOffline := [c3rec], persistedOnline := [] }

def c2info : ImageInfo :=
  { uri := "/d/5-0.jpg", uploadStatus := .pending, uploadError := none
    uploadDate := none, cloudPath := none }

def c6x : ImageInfo :=
  { uri := "/d/1-0.jpg", uploadStatus := .pending, uploadError := none
    uploadDate := none, cloudPath := none }

def c6s : Sys :=
  { savedImages := [c6x], saveQueue := [], uploadQueue := [c6x]
    offlineDeleteQueue := [], onlineDeleteQueue := []
    processingImages := [], isConnected := false
    localFiles := ["/d/1-0.jpg"], remote := []
    persistedImages := [c6x], persistedOffline := [], persistedOnline := [] }

def c8pickA : ImageInfo :=
  { uri := "a", uploadStatus := .pending, uploadError := none
    uploadDate := none, cloudPath := none }

def c8pickB : ImageInfo :=
  { uri := "b", uploadStatus := .pending, uploadError := none
    uploadDate := none, cloudPath := none }

def c8s0 : Sys :=
  { savedImages := [], saveQueue := [c8pickA], uploadQueue := []
    offlineDeleteQueue := [], onlineDeleteQueue := []
    processingImages := [], isConnected := true
    localFiles := [], remote := []
    persistedImages := [], persistedOffline := [], persistedOnline := [] }

def c8s1 : Sys := processSaveQueue 1000 "/d/" (fun _ => true) c8s0

def c8s2 : Sys :=
  processSaveQueue 1000 "/d/" (fun _ => true) { c8s1 with saveQueue := [c8pickB] }

def c9pick : ImageInfo :=
  { uri := "ph", uploadStatus := .pending, uploadError := none
    uploadDate := none, cloudPath := none }

def c9s0 : Sys :=
  { savedImages := [], saveQueue := [c9pick], uploadQueue := []
    offlineDeleteQueue := [], onlineDeleteQueue := []
    processingImages := [], isConnected := true
    localFiles := [], remote := []
    persistedImages := [], persistedOffline := [], persistedOnline := [] }

def c9s1 : Sys := processSaveQueue 5 "/d/" (fun _ => true) c9s0

def c9x : ImageInfo :=
  { uri := "/d/5-0.jpg", uploadStatus := .pending, uploadError := none
    uploadDate := none, cloudPath := none }

def c9s2 : Sys := (uploadDrainStart c9s1).2

def c9s3 : Sys := uploadMarkProcessing c9s2 9 c9x

def c9up : ImageInfo × List String :=
  uploadImageToCloud true [] 9 "2025-01-05" c9s3.remote c9x
    (AdapterOutcome.fail "server exploded")

def c9s4 : Sys := uploadResolve { c9s3 with remote := c9up.2 } 9 c9x c9up.1

def c9s5 : Sys := onConnectivity c9s4 false

def c9s6 : Sys := onConnectivity c9s5 true

def c9s7 : Sys := onConnectivity c9s6 false

def c9s8 : Sys := deleteImage c9s7 0

def c9xerr : ImageInfo :=
  { uri := "/d/5-0.jpg", uploadStatus := .error
    uploadError := some "server exploded", uploadDate := none, cloudPath := none }

def c9ws : Sys :=
  { savedImages := [c9x], saveQueue := [], uploadQueue := [c9x]
    offlineDeleteQueue := [], onlineDeleteQueue := []
    processingImages := [], isConnected := false
    localFiles := ["/d/5-0.jpg"], remote := []
    persistedImages := [c9x], persistedOffline := [], persistedOnline := [] }

def c1x : ImageInfo :=
  { uri := "/d/7-0.jpg", uploadStatus := .pending, uploadError := none
    uploadDate := none, cloudPath := none }

def c1s0 : Sys :=
  { savedImages := [c1x], saveQueue := [], uploadQueue := [c1x]
    offlineDeleteQueue := [], onlineDeleteQueue := []
    processingImages := [], isConnected := true
    localFiles := ["/d/7-0.jpg"], remote := []
    persistedImages := [c1x], persistedOffline := [], persistedOnline := [] }

def c1s1 : Sys := (uploadDrainStart c1s0).2

def c1s2 : Sys := uploadMarkProcessing c1s1 9 c1x

def c1up : ImageInfo × List String :=
  uploadImageToCloud true [] 9 "2025-01-06" c1s2.remote c1x AdapterOutcome.ok

def c1s3 : Sys := deleteImage { c1s2 with remote := c1up.2 } 0

def c1s4 : Sys := processOfflineDeleteQueue c1s3 true

def c1s5 : Sys := uploadResolve c1s4 9 c1x c1up.1

lemma charVal_digitChar {k : Nat} (h : k < 10) :
    charVal (Nat.digitChar k) = k := by
  revert h
  revert k
  decide

lemma digitChar_isDigit {k : Nat} (h : k < 10) :
    (Nat.digitChar k).isDigit = true := by
  revert h
  revert k
  decide

lemma toDigitsCore_append :
    ∀ (m : Nat) (fuel : Nat) (ds : List Char), m < fuel →
      Nat.toDigitsCore 10 fuel m ds = Nat.toDigitsCore 10 (m + 1) m [] ++ ds := by
  intro m
  induction m using Nat.strong_induction_on with
  | _ m ih =>
    intro fuel ds hlt
    obtain ⟨f, rfl⟩ : ∃ f, fuel = f + 1 := ⟨fuel - 1, by omega⟩
    by_cases h0 : m / 10 = 0
    · simp [Nat.toDigitsCore, h0]
    · have hm : 0 < m := by
        rcases Nat.eq_zero_or_pos m with h | h
        · exact absurd (by simp [h]) h0
        · exact h
      have hdiv : m / 10 < m := Nat.div_lt_self hm (by omega)
      have h1 : m / 10 < f := by omega
      have h2 : m / 10 < m := hdiv
      simp only [Nat.toDigitsCore, h0, if_false]
      rw [ih (m / 10) hdiv f (Nat.digitChar (m % 10) :: ds) h1,
          ih (m / 10) hdiv m [Nat.digitChar (m % 10)] h2]
      simp

lemma toDigits_lt {n : Nat} (h : n < 10) :
    Nat.toDigits 10 n = [Nat.digitChar n] := by
  have h0 : n / 10 = 0 := Nat.div_eq_of_lt h
  have h1 : n % 10 = n := Nat.mod_eq_of_lt h
  simp [Nat.toDigits, Nat.toDigitsCore, h0, h1]

lemma toDigits_ge {n : Nat} (h : 10 ≤ n) :
    Nat.toDigits 10 n =
      Nat.toDigits 10 (n / 10) ++ [Nat.digitChar (n % 10)] := by
  have h0 : ¬ n / 10 = 0 := by
    intro hc
    have : n < 10 := (Nat.div_eq_zero_iff (by omega)).mp hc
    omega
  have hdiv : n / 10 < n := Nat.div_lt_self (by omega) (by omega)
  show Nat.toDigitsCore 10 (n + 1) n [] = _
  simp only [Nat.toDigitsCore, h0, if_false]
  rw [toDigitsCore_append (n / 10) n [Nat.digitChar (n % 10)] (by omega)]
  rfl

lemma digitsVal_toDigits : ∀ n : Nat, digitsVal (Nat.toDigits 10 n) = n := by
  intro n
  induction n using Nat.strong_induction_on with
  | _ n ih =>
    by_cases h : n < 10
    · rw [toDigits_lt h]
      simp [digitsVal, charVal_digitChar h]
    · push_neg at h
      have hdiv : n / 10 < n := Nat.div_lt_self (by omega) (by omega)
      rw [toDigits_ge h]
      unfold digitsVal
      rw [List.foldl_append]
      have : digitsVal (Nat.toDigits 10 (n / 10)) = n / 10 := ih _ hdiv
      unfold digitsVal at this
      rw [this]
      simp only [List.foldl_cons, List.foldl_nil]
      rw [charVal_digitChar (Nat.mod_lt n (by omega))]
      omega

lemma repr_inj {m n : Nat} (h : Nat.repr m = Nat.repr n) : m = n := by
  have hd : Nat.toDigits 10 m = Nat.toDigits 10 n := by
    have := congrArg String.data h
    simpa [Nat.repr, List.asString] using this
  calc m = digitsVal (Nat.toDigits 10 m) := (digitsVal_toDigits m).symm
    _ = digitsVal (Nat.toDigits 10 n) := by rw [hd]
    _ = n := digitsVal_toDigits n

lemma toDigitsCore_digits :
    ∀ (fuel m : Nat) (ds : List Char), (∀ c ∈ ds, c.isDigit = true) →
      ∀ c ∈ Nat.toDigitsCore 10 fuel m ds, c.isDigit = true := by
  intro fuel
  induction fuel with
  | zero => intro m ds hds c hc; exact hds c hc
  | succ f ih =>
    intro m ds hds c hc
    have hd : (Nat.digitChar (m % 10)).isDigit = true :=
      digitChar_isDigit (Nat.mod_lt m (by omega))
    simp only [Nat.toDigitsCore] at hc
    by_cases h0 : m / 10 = 0
    · simp only [h0, if_true] at hc
      rcases List.mem_cons.mp hc with hc | hc
      · exact hc ▸ hd
      · exact hds c hc
    · simp only [h0, if_false] at hc
      refine ih (m / 10) (Nat.digitChar (m % 10) :: ds) ?_ c hc
      intro c' hc'
      rcases List.mem_cons.mp hc' with hc' | hc'
      · exact hc' ▸ hd
      · exact hds c' hc'

lemma repr_all_digits (n : Nat) :
    ∀ c ∈ (Nat.repr n).data, c.isDigit = true := by
  intro c hc
  have : (Nat.repr n).data = Nat.toDigits 10 n := rfl
  rw [this] at hc
  exact toDigitsCore_digits (n + 1) n [] (by simp) c hc

lemma dash_not_mem_repr (n : Nat) : '-' ∉ (Nat.repr n).data := by
  intro hc
  have := repr_all_digits n '-' hc
  simp [Char.isDigit] at this

lemma append_sep_inj {α} (sep : α) :
    ∀ (d₁ d₂ e₁ e₂ : List α), sep ∉ d₁ → sep ∉ d₂ →
      d₁ ++ sep :: e₁ = d₂ ++ sep :: e₂ → d₁ = d₂ ∧ e₁ = e₂ := by
  intro d₁
  induction d₁ with
  | nil =>
    intro d₂ e₁ e₂ _ h₂ heq
    cases d₂ with
    | nil => simpa using heq
    | cons y d₂' =>
      simp only [List.nil_append, List.cons_append, List.cons.injEq] at heq
      exfalso
      apply h₂
      rw [← heq.1]
      exact List.mem_cons_self sep d₂'
  | cons x d₁' ih =>
    intro d₂ e₁ e₂ h₁ h₂ heq
    cases d₂ with
    | nil =>
      simp only [List.cons_append, List.nil_append, List.cons.injEq] at heq
      exfalso
      apply h₁
      rw [heq.1]
      exact List.mem_cons_self sep d₁'
    | cons y d₂' =>
      simp only [List.cons_append, List.cons.injEq] at heq
      have h₁' : sep ∉ d₁' := fun h => h₁ (List.mem_cons_of_mem x h)
      have h₂' : sep ∉ d₂' := fun h => h₂ (List.mem_cons_of_mem y h)
      obtain ⟨hd, he⟩ := ih d₂' e₁ e₂ h₁' h₂' heq.2
      exact ⟨by rw [heq.1, hd], he⟩

lemma mkUniqueId_data (t i : Nat) :
    (mkUniqueId t i).data = (Nat.repr t).data ++ '-' :: (Nat.repr i).data := by
  simp only [mkUniqueId, String.data_append, List.append_assoc]
  rfl

lemma mkUniqueId_inj {t₁ i₁ t₂ i₂ : Nat}
    (h : mkUniqueId t₁ i₁ = mkUniqueId t₂ i₂) : t₁ = t₂ ∧ i₁ = i₂ := by
  have hdata := congrArg String.data h
  rw [mkUniqueId_data, mkUniqueId_data] at hdata
  obtain ⟨h₁, h₂⟩ := append_sep_inj '-' _ _ _ _
    (dash_not_mem_repr t₁) (dash_not_mem_repr t₂) hdata
  constructor
  · exact repr_inj (by apply String.ext; exact h₁)
  · exact repr_inj (by apply String.ext; exact h₂)

/-- C4: when the RemoteDeleteQueue drain's adapter delete call fails, the
whole state is unchanged — in particular the failed entry is still at the
front of the queue and the persisted queue is untouched — and draining
stops (the queue length did not change, so the length-triggered effect
does not re-fire), leaving the entry to be retried on a later reconnect. -/
theorem c4_remote_delete_failure_keeps_entry (s : Sys) (e : DeleteItem)
    (rest : List DeleteItem) (hq : s.onlineDeleteQueue = e :: rest)
    (hc : s.isConnected = true) :
    processOnlineDeleteQueue s true = s ∧
    (processOnlineDeleteQueue s true).onlineDeleteQueue = e :: rest := by
  have h : processOnlineDeleteQueue s true = s := by
    unfold processOnlineDeleteQueue
    rw [hq, hc]
    simp
  exact ⟨h, by rw [h, hq]⟩

/-- C4 witness: the theorem at a concrete one-entry queue. -/
theorem c4_witness :
    processOnlineDeleteQueue c4s true = c4s :=
  (c4_remote_delete_failure_keeps_entry c4s c4item [] rfl rfl).1

/-- C5: a remote delete whose object is already gone is handled exactly
like a successful delete: the front entry leaves the RemoteDeleteQueue,
the popped queue is persisted, and the bucket is unchanged.  The
adapter's NotFound-is-success semantics is modelled from spec section
4.4 (the storage client reports no error for an absent key). -/
theorem c5_notfound_is_success (s : Sys) (e : DeleteItem)
    (rest : List DeleteItem) (hq : s.onlineDeleteQueue = e :: rest)
    (hc : s.isConnected = true) (habs : e.cloudPath ∉ s.remote) :
    (processOnlineDeleteQueue s false).onlineDeleteQueue = rest ∧
    (processOnlineDeleteQueue s false).persistedOnline = rest ∧
    (processOnlineDeleteQueue s false).remote = s.remote := by
  unfold processOnlineDeleteQueue
  rw [hq, hc]
  simp [List.erase_of_not_mem habs]

/-- C5 witness: the theorem at a queue whose entry's key is not in the
bucket. -/
theorem c5_witness :
    (processOnlineDeleteQueue c5s false).onlineDeleteQueue = [] ∧
    (processOnlineDeleteQueue c5s false).persistedOnline = [] ∧
    (processOnlineDeleteQueue c5s false).remote = c5s.remote :=
  c5_notfound_is_success c5s c5item [] rfl rfl (by decide)

/-- C10: when deleting the local file fails, the catch branch of the
LocalDeleteQueue drain still pops the entry and persists the popped
queue (the deletion is never retried), while the visible record map,
the RemoteDeleteQueue and the remote bucket are all unchanged — so a
record that had a remoteKey permanently orphans its remote object while
staying visible. -/
theorem c10_local_delete_failure (s : Sys) (r : ImageInfo)
    (rest : List ImageInfo) (hq : s.offlineDeleteQueue = r :: rest) :
    (processOfflineDeleteQueue s false).offlineDeleteQueue = rest ∧
    (processOfflineDeleteQueue s false).persistedOffline = rest ∧
    (processOfflineDeleteQueue s false).savedImages = s.savedImages ∧
    (processOfflineDeleteQueue s false).onlineDeleteQueue = s.onlineDeleteQueue ∧
    (processOfflineDeleteQueue s false).remote = s.remote := by
  unfold processOfflineDeleteQueue
  rw [hq]
  simp

/-- C10 witness: the theorem at a concrete state holding one Uploaded
record whose local delete fails. -/
theorem c10_witness :
    (processOfflineDeleteQueue c10s false).offlineDeleteQueue = [] ∧
    (processOfflineDeleteQueue c10s false).persistedOffline = [] ∧
    (processOfflineDeleteQueue c10s false).savedImages = c10s.savedImages ∧
    (processOfflineDeleteQueue c10s false).onlineDeleteQueue = c10s.onlineDeleteQueue ∧
    (processOfflineDeleteQueue c10s false).remote = c10s.remote :=
  c10_local_delete_failure c10s c10rec [] rfl

/-- C3: the success path of the LocalDeleteQueue drain deletes the local
file (idempotently — erasing an absent path is a no-op), pushes the
record onto the RemoteDeleteQueue exactly when it had a (nonempty)
remoteKey, removes the record from the visible map while keeping every
other record, persists the record map and both delete queues, and
leaves the remote bucket untouched — the remote object of a record
deleted while disconnected is removed only by the later RemoteDeleteQueue
drain after reconnect. -/
theorem c3_local_delete_drain (s : Sys) (r : ImageInfo)
    (rest : List ImageInfo) (hq : s.offlineDeleteQueue = r :: rest)
    (hsync : s.persistedOnline = s.onlineDeleteQueue)
    (hnd : s.localFiles.Nodup)
    (hkey : r.uploadStatus = .success ↔ ∃ k, r.cloudPath = some k ∧ k ≠ "") :
    -- local file removed (idempotently), the remote object untouched
    r.uri ∉ (processOfflineDeleteQueue s true).localFiles ∧
    (processOfflineDeleteQueue s true).remote = s.remote ∧
    -- the record leaves the visible map, other records stay
    (processOfflineDeleteQueue s true).savedImages =
      s.savedImages.filter (fun img => img.uri != r.uri) ∧
    -- pushed onto the RemoteDeleteQueue iff the record had a remoteKey
    (r.uploadStatus = .success → ∃ k, r.cloudPath = some k ∧
      (processOfflineDeleteQueue s true).onlineDeleteQueue =
        s.onlineDeleteQueue ++ [{ uri := r.uri, cloudPath := k }]) ∧
    (r.uploadStatus ≠ .success →
      (processOfflineDeleteQueue s true).onlineDeleteQueue = s.onlineDeleteQueue) ∧
    -- the record map and both delete queues are persisted
    (processOfflineDeleteQueue s true).offlineDeleteQueue = rest ∧
    (processOfflineDeleteQueue s true).persistedImages =
      (processOfflineDeleteQueue s true).savedImages ∧
    (processOfflineDeleteQueue s true).persistedOffline = rest ∧
    (processOfflineDeleteQueue s true).persistedOnline =
      (processOfflineDeleteQueue s true).onlineDeleteQueue := by
  have hmem : r.uri ∉ s.localFiles.erase r.uri := by
    intro h
    exact absurd rfl ((List.Nodup.mem_erase_iff hnd).mp h).1
  by_cases hst : r.uploadStatus = .success
  · obtain ⟨k, hk, hkne⟩ := hkey.mp hst
    have hres : processOfflineDeleteQueue s true =
        { s with
            localFiles := s.localFiles.erase r.uri
            onlineDeleteQueue :=
              s.onlineDeleteQueue ++ [{ uri := r.uri, cloudPath := k }]
            persistedOnline :=
              s.onlineDeleteQueue ++ [{ uri := r.uri, cloudPath := k }]
            savedImages := s.savedImages.filter (fun img => img.uri != r.uri)
            persistedImages := s.savedImages.filter (fun img => img.uri != r.uri)
            offlineDeleteQueue := rest
            persistedOffline := rest } := by
      unfold processOfflineDeleteQueue
      rw [hq]
      simp [hst, hk, hkne]
    rw [hres]
    refine ⟨hmem, rfl, rfl, fun _ => ⟨k, hk, rfl⟩, fun h => absurd hst h,
      rfl, rfl, rfl, rfl⟩
  · have hnopush : ¬ (r.uploadStatus = .success) := hst
    have hres : processOfflineDeleteQueue s true =
        { s with
            localFiles := s.localFiles.erase r.uri
            savedImages := s.savedImages.filter (fun img => img.uri != r.uri)
            persistedImages := s.savedImages.filter (fun img => img.uri != r.uri)
            offlineDeleteQueue := rest
            persistedOffline := rest } := by
      unfold processOfflineDeleteQueue
      rw [hq]
      simp [hnopush]
    rw [hres]
    exact ⟨hmem, rfl, rfl, fun h => absurd h hst, fun _ => rfl,
      rfl, rfl, rfl, hsync⟩

/-- C3 witness: the theorem at a concrete state deleting one Uploaded
record while disconnected. -/
theorem c3_witness :
    c3rec.uri ∉ (processOfflineDeleteQueue c3s true).localFiles ∧
    (processOfflineDeleteQueue c3s true).offlineDeleteQueue = [] := by
  have h := c3_local_delete_drain c3s c3rec [] rfl rfl (by decide)
    ⟨fun _ => ⟨"8-0.jpg", rfl, by decide⟩, fun _ => rfl⟩
  exact ⟨h.1, h.2.2.2.2.2.1⟩

/-- C7: load() keeps exactly the persisted records whose local file
still exists (every other record is dropped silently), keeps the
survivors with their persisted status unchanged (they are returned
as-is), and enqueues for upload exactly the surviving records whose
status is pending or error — the upload queue is the initial empty list
at startup, so none of them was already queued. -/
theorem c7_load_drops_missing_files (persistedImages offlineQ : List ImageInfo)
    (onlineQ : List DeleteItem) (localFiles : List String)
    (hne : "" ∉ localFiles) :
    (∀ img, img ∈ (loadSavedImages persistedImages offlineQ onlineQ localFiles).savedImages
      ↔ img ∈ persistedImages ∧ img.uri ∈ localFiles) ∧
    (∀ img, img ∈ (loadSavedImages persistedImages offlineQ onlineQ localFiles).uploadQueue
      ↔ img ∈ (loadSavedImages persistedImages offlineQ onlineQ localFiles).savedImages ∧
        (img.uploadStatus = .pending ∨ img.uploadStatus = .error)) := by
  constructor
  · intro img
    simp only [loadSavedImages, List.mem_filterMap, loadCheckImage]
    constructor
    · rintro ⟨a, ha, hsome⟩
      by_cases h1 : a.uri = ""
      · rw [if_pos h1] at hsome
        cases hsome
      · rw [if_neg h1] at hsome
        by_cases h2 : localFiles.contains a.uri
        · rw [if_pos h2] at hsome
          cases hsome
          exact ⟨ha, by simpa using h2⟩
        · rw [if_neg h2] at hsome
          cases hsome
    · rintro ⟨hmem, hfile⟩
      refine ⟨img, hmem, ?_⟩
      have h1 : ¬ img.uri = "" := fun h => hne (h ▸ hfile)
      have h2 : localFiles.contains img.uri := by simpa using hfile
      rw [if_neg h1, if_pos h2]
  · intro img
    simp only [loadSavedImages, List.nil_append, List.mem_filter]
    constructor
    · rintro ⟨hmem, hp⟩
      refine ⟨hmem, ?_⟩
      revert hp
      rcases img.uploadStatus <;> simp
    · rintro ⟨hmem, hp⟩
      refine ⟨hmem, ?_⟩
      rcases hp with h | h <;> simp [h]

/-- If the bucket pre-check finds a matching key, `uploadImageToCloud`
short-circuits to success with the canonical file name, leaving the
bucket untouched. -/
lemma uploadImageToCloud_precheck_hit (proc : List String) (now : Nat)
    (d : String) (remote : List String) (info : ImageInfo)
    (o : AdapterOutcome)
    (hany : remote.any
      (fun f => generateImageHash now f == generateImageHash now info.uri) = true) :
    uploadImageToCloud true proc now d remote info o =
      ({ info with uploadStatus := .success, uploadDate := some d,
                   cloudPath := some (generateImageHash now info.uri ++ ".jpg"),
                   uploadError := none }, remote) := by
  unfold uploadImageToCloud
  simp [hany]

/-- C2: running the upload twice for the same record id — the second
attempt after the first resolved successfully, as after a crash-then-
retry — creates at most one remote object, and the second attempt
resolves to the same remoteKey as the first with the bucket unchanged,
because the upload lists the existing remote objects first and
short-circuits to success when a matching key exists. -/
theorem c2_upload_idempotent (info retry : ImageInfo) (remote : List String)
    (now : Nat) (d₁ d₂ : String) (o₁ o₂ : AdapterOutcome)
    (huri : retry.uri = info.uri)
    (hround : generateImageHash now (generateImageHash now info.uri ++ ".jpg")
      = generateImageHash now info.uri)
    (hs : (uploadImageToCloud true [] now d₁ remote info o₁).1.uploadStatus
      = .success) :
    (uploadImageToCloud true [] now d₂
      (uploadImageToCloud true [] now d₁ remote info o₁).2 retry o₂).1.uploadStatus
        = .success ∧
    (uploadImageToCloud true [] now d₂
      (uploadImageToCloud true [] now d₁ remote info o₁).2 retry o₂).1.cloudPath
        = (uploadImageToCloud true [] now d₁ remote info o₁).1.cloudPath ∧
    (uploadImageToCloud true [] now d₂
      (uploadImageToCloud true [] now d₁ remote info o₁).2 retry o₂).2
        = (uploadImageToCloud true [] now d₁ remote info o₁).2 ∧
    (uploadImageToCloud true [] now d₁ remote info o₁).2.length
        ≤ remote.length + 1 := by
  by_cases hany : remote.any
      (fun f => generateImageHash now f == generateImageHash now info.uri) = true
  · have h1 := uploadImageToCloud_precheck_hit [] now d₁ remote info o₁ hany
    have hany2 : remote.any
        (fun f => generateImageHash now f == generateImageHash now retry.uri) = true := by
      rw [huri]
      exact hany
    have h2 := uploadImageToCloud_precheck_hit [] now d₂ remote retry o₂ hany2
    rw [h1]
    simp only
    rw [h2]
    simp [huri]
  · have hnotmem : (generateImageHash now info.uri ++ ".jpg") ∉ remote := by
      intro hmem
      apply hany
      rw [List.any_eq_true]
      exact ⟨_, hmem, by rw [hround]; exact beq_self_eq_true _⟩
    have hany' : remote.any
        (fun f => generateImageHash now f == generateImageHash now info.uri) = false :=
      Bool.eq_false_iff.mpr hany
    have hcontains :
        remote.contains (generateImageHash now info.uri ++ ".jpg") = false := by
      rw [Bool.eq_false_iff]
      intro hc
      exact hnotmem (by simpa using hc)
    cases o₁ with
    | fail msg =>
      exfalso
      have hrun1 : uploadImageToCloud true [] now d₁ remote info (AdapterOutcome.fail msg) =
          ({ info with uploadStatus := if jsIncludes "network" (jsToLower msg) then UploadStatus.pending else UploadStatus.error, uploadError := some msg }, remote) := by
        unfold uploadImageToCloud
        simp [hany', hcontains, hnotmem]
      rw [hrun1] at hs
      simp only at hs
      by_cases hnet : jsIncludes "network" (jsToLower msg) = true
      · rw [if_pos hnet] at hs
        cases hs
      · rw [if_neg hnet] at hs
        cases hs
    | ok =>
      have hrun1 : uploadImageToCloud true [] now d₁ remote info AdapterOutcome.ok =
          ({ info with uploadStatus := .success, uploadDate := some d₁, cloudPath := some (generateImageHash now info.uri ++ ".jpg"), uploadError := none }, (generateImageHash now info.uri ++ ".jpg") :: remote) := by
        unfold uploadImageToCloud
        simp [hany', hcontains, hnotmem]
      rw [hrun1]
      simp only
      have hany2 : ((generateImageHash now info.uri ++ ".jpg") :: remote).any
          (fun f => generateImageHash now f == generateImageHash now retry.uri) = true := by
        rw [List.any_eq_true]
        refine ⟨generateImageHash now info.uri ++ ".jpg", List.mem_cons_self _ _, ?_⟩
        rw [huri, hround]
        exact beq_self_eq_true _
      have h2 := uploadImageToCloud_precheck_hit [] now d₂
        ((generateImageHash now info.uri ++ ".jpg") :: remote) retry o₂ hany2
      rw [h2]
      simp [huri]

/-- C2 witness: the theorem at a concrete record uploaded twice into an
initially empty bucket. -/
theorem c2_witness :
    (uploadImageToCloud true [] 9 "t2"
      (uploadImageToCloud true [] 9 "t1" [] c2info AdapterOutcome.ok).2
      c2info AdapterOutcome.ok).1.cloudPath
      = (uploadImageToCloud true [] 9 "t1" [] c2info AdapterOutcome.ok).1.cloudPath ∧
    (uploadImageToCloud true [] 9 "t2"
      (uploadImageToCloud true [] 9 "t1" [] c2info AdapterOutcome.ok).2
      c2info AdapterOutcome.ok).2
      = (uploadImageToCloud true [] 9 "t1" [] c2info AdapterOutcome.ok).2 := by
  have h := c2_upload_idempotent c2info c2info [] 9 "t1" "t2"
    AdapterOutcome.ok AdapterOutcome.ok rfl (by decide) (by decide)
  exact ⟨h.2.1, h.2.2.1⟩

/-- C6 counterexample: a pending record that is already in the
UploadQueue is appended again by the connectivity handler on a
connected event, so it ends up enqueued twice — refuting the claim that
exactly the UploadFailed/Pending records not currently in the
UploadQueue are re-enqueued (no record enqueued twice). -/
theorem c6_counterexample :
    c6x ∈ c6s.uploadQueue ∧
    (onConnectivity c6s true).uploadQueue.count c6x = 2 := by decide

/-- C6 amended: on a connected event the handler appends every record
with status error (UploadFailed) or pending to the UploadQueue
regardless of whether it is already queued — multiplicities add, so
duplicates arise — and records the connectivity flag (the queue drains
are then triggered by the effects); a disconnected event changes
nothing but the connectivity flag. -/
theorem c6_amended_connectivity (s : Sys) (x : ImageInfo) :
    ((onConnectivity s true).uploadQueue.count x =
      s.uploadQueue.count x +
        (s.savedImages.filter (fun img =>
          img.uploadStatus = .error || img.uploadStatus = .pending)).count x) ∧
    (onConnectivity s true).isConnected = true ∧
    onConnectivity s false = { s with isConnected := false } := by
  refine ⟨?_, rfl, rfl⟩
  simp [onConnectivity, List.count_append]

/-- C8 counterexample: two single-image batches whose save-queue drains
run at the same millisecond timestamp produce two records with the same
derived id 1000-0 (and the same target path) — refuting the claim that
records created in different batches always get distinct ids. -/
theorem c8_counterexample :
    (c8s2.savedImages.map (fun img => generateImageHash 0 img.uri))
      = ["1000-0", "1000-0"] ∧
    ¬ (c8s2.savedImages.map (fun img => generateImageHash 0 img.uri)).Nodup := by
  decide

/-- C8 amended: ids derived from the batch timestamp and the intra-batch
index are distinct whenever the (timestamp, index) pairs are distinct —
two images in one batch never collide, and neither do batches drained
at different timestamps; only two batch drains at the same millisecond
can collide (the counterexample). -/
theorem c8_amended_id_unique (t₁ i₁ t₂ i₂ : Nat)
    (h : (t₁, i₁) ≠ (t₂, i₂)) :
    mkUniqueId t₁ i₁ ≠ mkUniqueId t₂ i₂ := by
  intro he
  obtain ⟨h1, h2⟩ := mkUniqueId_inj he
  exact h (by rw [h1, h2])

/-- C8 witness: the amended theorem at two indices of one batch. -/
theorem c8_witness : mkUniqueId 3 0 ≠ mkUniqueId 3 1 :=
  c8_amended_id_unique 3 0 3 1 (by decide)

/-- C9 counterexample: a reachable trace — save a picked image, its
upload fails with a server error, disconnect, a reconnect event
re-enqueues the UploadFailed record, disconnect again before the drain
runs, then removeImage — after which the record sits in both the
UploadQueue and the LocalDeleteQueue, refuting the invariant that a
record appears in at most one queue and that removeImage dequeues it
from the UploadQueue regardless of its status. -/
theorem c9_counterexample :
    c9xerr ∈ c9s8.uploadQueue ∧ c9xerr ∈ c9s8.offlineDeleteQueue := by decide

/-- C9 amended: removeImage removes the record from the UploadQueue only
when its status at deletion time is pending (then no entry with its uri
remains in the UploadQueue, so the record sits only in the
LocalDeleteQueue); for any other status the UploadQueue is left
unchanged; in every case the record is appended to the LocalDeleteQueue. -/
theorem c9_amended_delete_removes_only_pending (s : Sys) (i : Nat)
    (img : ImageInfo) (h : s.savedImages[i]? = some img) :
    (img.uploadStatus = .pending →
      ∀ q ∈ (deleteImage s i).uploadQueue, q.uri ≠ img.uri) ∧
    (img.uploadStatus ≠ .pending →
      (deleteImage s i).uploadQueue = s.uploadQueue) ∧
    img ∈ (deleteImage s i).offlineDeleteQueue := by
  unfold deleteImage
  rw [h]
  dsimp only
  by_cases hp : img.uploadStatus = .pending
  · rw [if_pos hp]
    refine ⟨fun _ q hq => ?_, fun hc => absurd hp hc, by simp⟩
    rw [List.mem_filter] at hq
    intro he
    have h2 := hq.2
    rw [he] at h2
    simp at h2
  · rw [if_neg hp]
    exact ⟨fun hc => absurd hc hp, fun _ => rfl, by simp⟩

/-- C9 witness: the amended theorem deleting a pending record. -/
theorem c9_witness : c9x ∈ (deleteImage c9ws 0).offlineDeleteQueue :=
  (c9_amended_delete_removes_only_pending c9ws 0 c9x rfl).2.2

/-- C1: evaluation of the delete-during-upload race at the failing
schedule.  addImages([x]) put x in the upload queue; the drain starts
and the adapter call is issued (the object is created remotely);
removeImage(x) and the LocalDeleteQueue drain run while the call is in
flight; the upload then resolves successfully.  In the final state the
remote bucket holds the object and no record for x is visible — but,
contrary to the claim, the resulting remoteKey was NOT enqueued onto
the RemoteDeleteQueue (which is empty), so the remote object is
orphaned: the code has no path that turns a resolved upload of a
deleted record into a remote-deletion entry. -/
theorem c1_race_eval :
    c1s5.remote = ["7-0.jpg"] ∧
    c1s5.savedImages = [] ∧
    c1s5.onlineDeleteQueue = [] ∧
    c1s5.persistedOnline = [] ∧
    c1up.1.uploadStatus = .success ∧ c1up.1.cloudPath = some "7-0.jpg" := by
  decide

/-- C7 witness: the theorem at a two-record store where only one file
survives. -/
theorem c7_witness :
    c7img ∈ (loadSavedImages [c7img, c7gone] [] [] ["/d/2-0.jpg"]).savedImages ∧
    c7gone ∉ (loadSavedImages [c7img, c7gone] [] [] ["/d/2-0.jpg"]).savedImages ∧
    c7img ∈ (loadSavedImages [c7img, c7gone] [] [] ["/d/2-0.jpg"]).uploadQueue := by
  obtain ⟨h1, h2⟩ := c7_load_drops_missing_files [c7img, c7gone] [] []
    ["/d/2-0.jpg"] (by decide)
  refine ⟨(h1 c7img).mpr (by decide), fun hmem => ?_, (h2 c7img).mpr
    ⟨(h1 c7img).mpr (by decide), by decide⟩⟩
  have hdrop := ((h1 c7gone).mp hmem).2
  revert hdrop
  decide

end OfflineGallery
